import Mathlib

/-!
Shallow embedding of the SQL-generation module (`src/utils/sqlGenerator.ts`)
and the project-state reducer (`src/hooks/useProject.ts`) of the
visual schema-designer repository, together with proofs about the
claims on their behaviour.

JavaScript-specific conventions modelled explicitly:
* optional string fields become `Option String`; a JS truthiness test
  `if (x)` on such a field is `jsTruthy` (present and non-empty);
* `String.prototype.toUpperCase` is modelled on ASCII letters
  (`jsToUpper`), `String.prototype.trim` as `jsTrim` over the common
  whitespace characters;
* `value.replace(/'/g, "''")` is `sqEscape`;
* the numeric test `!isNaN(Number(value))` is `jsIsNumeric`, following
  the ECMAScript string-to-number grammar (optional sign, decimal with
  optional fraction and exponent, `Infinity`, and unsigned `0x`/`0o`/`0b`
  radix literals; a whitespace-only string converts to `0`).
-/

namespace SqlArchitect

/-- The single-quote character, written via its code point. -/
def sqChar : Char := Char.ofNat 39

/-- The single-quote as a one-character string. -/
def sq : String := String.singleton sqChar

/-- Models `value.replace(/'/g, "''")`: every single quote is doubled. -/
def escQuotes : List Char → List Char
  | [] => []
  | c :: cs => if c = sqChar then sqChar :: sqChar :: escQuotes cs else c :: escQuotes cs

/-- String-level wrapper for `escQuotes`. -/
def sqEscape (s : String) : String := ⟨escQuotes s.data⟩

/-- Whitespace characters recognised by the JS `trim` / `Number` conversions
(space, tab, line feed, carriage return, vertical tab, form feed). -/
def isJsSpace (c : Char) : Bool :=
  c = ' ' || c = Char.ofNat 9 || c = Char.ofNat 10 || c = Char.ofNat 13 ||
  c = Char.ofNat 11 || c = Char.ofNat 12

/-- Strip leading and trailing JS whitespace from a character list. -/
def trimChars (l : List Char) : List Char :=
  ((l.dropWhile isJsSpace).reverse.dropWhile isJsSpace).reverse

/-- Models `String.prototype.trim`. -/
def jsTrim (s : String) : String := ⟨trimChars s.data⟩

/-- Models `String.prototype.toUpperCase` on ASCII letters. -/
def jsToUpper (s : String) : String := ⟨s.data.map Char.toUpper⟩

/-- JS truthiness of an optional string field: defined and non-empty. -/
def jsTruthy : Option String → Bool
  | none => false
  | some s => s != ""

/-- JS truthiness of an optional numeric field: defined and non-zero. -/
def jsTruthyNat : Option Nat → Bool
  | none => false
  | some n => n != 0

/-- Accepts an optional exponent part (`e`/`E`, optional sign, one or more
digits) that must consume the whole remaining input. -/
def expPartOk : List Char → Bool
  | [] => true
  | e :: r =>
    (e = 'e' || e = 'E') &&
      (let r2 := match r with
        | c :: rr => if c = '+' || c = '-' then rr else c :: rr
        | [] => []
      let ds := r2.takeWhile Char.isDigit
      !ds.isEmpty && (r2.dropWhile Char.isDigit).isEmpty)

/-- Unsigned ECMAScript decimal literal: `digits [. digits] [exp]` or
`. digits [exp]`. -/
def decLitOk (l : List Char) : Bool :=
  let ds := l.takeWhile Char.isDigit
  let rest := l.dropWhile Char.isDigit
  if ds.isEmpty then
    match l with
    | '.' :: r =>
      let fs := r.takeWhile Char.isDigit
      !fs.isEmpty && expPartOk (r.dropWhile Char.isDigit)
    | _ => false
  else
    match rest with
    | '.' :: r => expPartOk (r.dropWhile Char.isDigit)
    | _ => expPartOk rest

/-- Hexadecimal digit test. -/
def isHexDig (c : Char) : Bool :=
  c.isDigit || ('a' ≤ c && c ≤ 'f') || ('A' ≤ c && c ≤ 'F')

/-- Unsigned decimal literal or the token `Infinity`. -/
def decOrInfinity (l : List Char) : Bool :=
  l = "Infinity".data || decLitOk l

/-- ECMAScript string numeric literal, after whitespace trimming:
empty input converts to `0`; otherwise an optionally signed decimal
literal or `Infinity`, or an unsigned radix (`0x`/`0o`/`0b`) literal. -/
def strNumericOk (l : List Char) : Bool :=
  match l with
  | [] => true
  | c :: r =>
    (if c = '+' || c = '-' then decOrInfinity r else decOrInfinity (c :: r)) ||
    (match l with
      | '0' :: x :: rr =>
        ((x = 'x' || x = 'X') && !rr.isEmpty && rr.all isHexDig) ||
        ((x = 'o' || x = 'O') && !rr.isEmpty && rr.all (fun d => '0' ≤ d && d ≤ '7')) ||
        ((x = 'b' || x = 'B') && !rr.isEmpty && rr.all (fun d => d = '0' || d = '1'))
      | _ => false)

/-- Models `!isNaN(Number(value))` for a string value. -/
def jsIsNumeric (s : String) : Bool := strNumericOk (trimChars s.data)

/-- Models `String.prototype.split(',')`: splits at every comma, keeping
empty fragments, and yields `[""]` on the empty string. -/
def splitCommaAux (acc : List Char) : List Char → List (List Char)
  | [] => [acc.reverse]
  | c :: cs => if c = ',' then acc.reverse :: splitCommaAux [] cs else splitCommaAux (c :: acc) cs

/-- String-level comma split. -/
def jsSplitComma (s : String) : List String :=
  (splitCommaAux [] s.data).map fun l => ⟨l⟩

/-- Boolean list-level prefix test (used by the substring test). -/
def prefixOfCL : List Char → List Char → Bool
  | [], _ => true
  | _ :: _, [] => false
  | a :: as, b :: bs => a = b && prefixOfCL as bs

/-- Boolean list-level substring test. -/
def infixOfCL (needle : List Char) : List Char → Bool
  | [] => prefixOfCL needle []
  | c :: t => prefixOfCL needle (c :: t) || infixOfCL needle t

/-- Does `s` contain `sub` as a contiguous substring? -/
def strContains (s sub : String) : Bool := infixOfCL sub.data s.data

/-! ## Data model (`src/types.ts`) -/

/-- The `SQLDialect` union type. -/
inductive Dialect
  | mysql
  | postgresql
  | sqlite
  | mariadb
  | oracle
deriving DecidableEq, Repr

/-- The `ReferentialAction` union type. -/
inductive ReferentialAction
  | restrict
  | cascade
  | setNull
  | noAction
  | setDefault
deriving DecidableEq, Repr

/-- SQL text of a referential action, as stored in the source's string union. -/
def ReferentialAction.text : ReferentialAction → String
  | .restrict => "RESTRICT"
  | .cascade => "CASCADE"
  | .setNull => "SET NULL"
  | .noAction => "NO ACTION"
  | .setDefault => "SET DEFAULT"

/-- The `Column` interface. -/
structure Column where
  id : String
  name : String
  dataType : String
  length : Option String := none
  isPrimaryKey : Bool
  isNotNull : Bool
  isAutoIncrement : Bool
  isUnique : Bool
  defaultValue : Option String := none
  isForeignKey : Option Bool := none
  referencesTable : Option String := none
  referencesColumn : Option String := none
  comment : Option String := none
  collation : Option String := none
  charset : Option String := none
deriving DecidableEq, Repr

/-- Canvas position of a table node (layout only). -/
structure Position where
  x : Int
  y : Int
deriving DecidableEq, Repr

/-- The `TableData` interface. -/
structure TableData where
  id : String
  name : String
  columns : List Column
  position : Position
  engine : Option String := none
  charset : Option String := none
  collation : Option String := none
  comment : Option String := none
  autoIncrement : Option Nat := none
deriving DecidableEq, Repr

/-- The `RelationshipData` interface (`type` is the cardinality tag). -/
structure RelationshipData where
  id : String
  sourceTable : String
  targetTable : String
  sourceColumn : String
  targetColumn : String
  cardinality : String
  onUpdate : ReferentialAction
  onDelete : ReferentialAction
deriving DecidableEq, Repr

/-- The `IndexData` interface. -/
structure IndexData where
  id : String
  name : String
  tableId : String
  columns : List String
  kind : String
  method : Option String := none
deriving DecidableEq, Repr

/-- The `ViewData` interface. -/
structure ViewData where
  id : String
  name : String
  definition : String
  isUpdatable : Bool
  algorithm : String
  sqlSecurity : String
  comment : Option String := none
deriving DecidableEq, Repr

/-- The `Parameter` interface of a stored procedure. -/
structure Parameter where
  name : String
  type : String
  direction : String
deriving DecidableEq, Repr

/-- The `StoredProcedureData` interface. -/
structure StoredProcedureData where
  id : String
  name : String
  parameters : List Parameter
  body : String
  kind : String
  returnType : Option String := none
  comment : Option String := none
  sqlSecurity : String
  deterministic : Bool
deriving DecidableEq, Repr

/-- The `TriggerData` interface. -/
structure TriggerData where
  id : String
  name : String
  tableId : String
  timing : String
  event : String
  body : String
  comment : Option String := none
deriving DecidableEq, Repr

/-- The `DatabaseData` interface. -/
structure DatabaseData where
  id : String
  name : String
  charset : String
  collation : String
  comment : Option String := none
deriving DecidableEq, Repr

/-- The `UserData` interface. -/
structure UserData where
  id : String
  username : String
  host : String
  password : Option String := none
  privileges : List String
  comment : Option String := none
deriving DecidableEq, Repr

/-- The `ProjectData` aggregate root. -/
structure ProjectData where
  databases : List DatabaseData
  tables : List TableData
  relationships : List RelationshipData
  indexes : List IndexData
  views : List ViewData
  procedures : List StoredProcedureData
  triggers : List TriggerData
  users : List UserData
  name : String
  dialect : Dialect
  currentDatabase : Option String := none
deriving DecidableEq, Repr

/-! ## SQL generator (`src/utils/sqlGenerator.ts`)

The TypeScript class `SQLGenerator` stores the dialect in a private field;
here each method takes the dialect as its first argument. -/

/-- `quoteIdentifier` (lines 387-400): backtick for MySQL/MariaDB,
double quote for PostgreSQL/SQLite, double quote with upper-casing
for Oracle. -/
def quoteIdentifier (d : Dialect) (identifier : String) : String :=
  match d with
  | .mysql | .mariadb => "`" ++ identifier ++ "`"
  | .postgresql | .sqlite => "\"" ++ identifier ++ "\""
  | .oracle => "\"" ++ jsToUpper identifier ++ "\""

/-- `getAutoIncrementSyntax` (lines 425-437); the `default` branch of the
source's switch covers Oracle. -/
def getAutoIncrementSyntax : Dialect → String
  | .mysql | .mariadb => " AUTO_INCREMENT"
  | .postgresql => ""
  | .sqlite => " AUTOINCREMENT"
  | .oracle => " AUTO_INCREMENT"

/-- `formatDataType` (lines 402-423): length suffix for character/binary
types and DECIMAL/NUMERIC; ENUM/SET render the length field as a
comma-separated quoted value list. -/
def formatDataType (c : Column) : String :=
  let dataType := c.dataType
  let dataType :=
    if jsTruthy c.length && ["VARCHAR", "CHAR", "VARBINARY", "BINARY"].contains c.dataType then
      dataType ++ "(" ++ c.length.getD "" ++ ")"
    else dataType
  let dataType :=
    if (c.dataType == "DECIMAL" || c.dataType == "NUMERIC") && jsTruthy c.length then
      dataType ++ "(" ++ c.length.getD "" ++ ")"
    else dataType
  let dataType :=
    if (c.dataType == "ENUM" || c.dataType == "SET") && jsTruthy c.length then
      dataType ++ "(" ++
        String.intercalate ", " ((jsSplitComma (c.length.getD "")).map fun val => sq ++ jsTrim val ++ sq)
        ++ ")"
    else dataType
  dataType

/-- The list of default-value tokens passed through unquoted
(`formatDefaultValue`, line 442). -/
def specialDefaultTokens : List String :=
  ["NOW()", "CURRENT_TIMESTAMP", "CURRENT_DATE", "CURRENT_TIME"]

/-- `formatDefaultValue` (lines 439-457). -/
def formatDefaultValue (value : String) : String :=
  let upperValue := jsToUpper value
  if specialDefaultTokens.contains upperValue then value
  else if value == "NULL" then value
  else if jsIsNumeric value then value
  else sq ++ sqEscape value ++ sq

/-- `generateCreateDatabaseSQL` (lines 11-24). -/
def generateCreateDatabaseSQL (d : Dialect) (database : DatabaseData) : String :=
  let sql := "CREATE DATABASE " ++ quoteIdentifier d database.name
  let sql :=
    if d = Dialect.mysql then
      sql ++ " CHARACTER SET " ++ database.charset ++ " COLLATE " ++ database.collation
    else sql
  let sql :=
    if jsTruthy database.comment then
      sql ++ " COMMENT " ++ sq ++ sqEscape (database.comment.getD "") ++ sq
    else sql
  sql ++ ";"

/-- One column definition line of `generateCreateTableSQL` (lines 40-60). -/
def columnDefinition (d : Dialect) (c : Column) : String :=
  let definition := "  " ++ quoteIdentifier d c.name ++ " " ++ formatDataType c
  let definition := if c.isNotNull then definition ++ " NOT NULL" else definition
  let definition := if c.isAutoIncrement then definition ++ getAutoIncrementSyntax d else definition
  let definition :=
    if jsTruthy c.defaultValue && jsTrim (c.defaultValue.getD "") != "" then
      definition ++ " DEFAULT " ++ formatDefaultValue (c.defaultValue.getD "")
    else definition
  let definition :=
    if jsTruthy c.comment && d = Dialect.mysql then
      definition ++ " COMMENT " ++ sq ++ sqEscape (c.comment.getD "") ++ sq
    else definition
  definition

/-- The PRIMARY KEY constraint entries of `generateCreateTableSQL`
(lines 62-67): one entry listing all primary-key columns, none when no
column is flagged. -/
def pkDefs (d : Dialect) (columns : List Column) : List String :=
  let primaryKeys := columns.filter fun col => col.isPrimaryKey
  if primaryKeys.length > 0 then
    ["  PRIMARY KEY (" ++
      String.intercalate ", " (primaryKeys.map fun col => quoteIdentifier d col.name) ++ ")"]
  else []

/-- The UNIQUE KEY constraint entries of `generateCreateTableSQL`
(lines 69-73). -/
def uniqueDefs (d : Dialect) (columns : List Column) : List String :=
  (columns.filter fun col => col.isUnique && !col.isPrimaryKey).map fun col =>
    "  UNIQUE KEY " ++ quoteIdentifier d ("uk_" ++ col.name) ++
      " (" ++ quoteIdentifier d col.name ++ ")"

/-- One FOREIGN KEY constraint of `generateCreateTableSQL` (lines 77-89):
`none` when the source column, target table, or target column does not
resolve by identifier lookup. -/
def fkConstraint (d : Dialect) (table : TableData) (allTables : List TableData)
    (fk : RelationshipData) : Option String :=
  match table.columns.find? fun col => col.id == fk.sourceColumn with
  | none => none
  | some sourceCol =>
    match allTables.find? fun t => t.id == fk.targetTable with
    | none => none
    | some targetTable =>
      match targetTable.columns.find? fun c => c.id == fk.targetColumn with
      | none => none
      | some targetCol =>
        some ("  CONSTRAINT " ++ quoteIdentifier d ("fk_" ++ table.name ++ "_" ++ sourceCol.name) ++
          " FOREIGN KEY (" ++ quoteIdentifier d sourceCol.name ++ ") REFERENCES " ++
          quoteIdentifier d targetTable.name ++ "(" ++ quoteIdentifier d targetCol.name ++
          ") ON UPDATE " ++ fk.onUpdate.text ++ " ON DELETE " ++ fk.onDelete.text)

/-- The FOREIGN KEY constraint entries of `generateCreateTableSQL`
(lines 75-89): relationships whose source table matches, with dangling
references silently skipped. -/
def fkDefs (d : Dialect) (table : TableData) (relationships : List RelationshipData)
    (allTables : List TableData) : List String :=
  (relationships.filter fun rel => rel.sourceTable == table.id).filterMap
    (fkConstraint d table allTables)

/-- All entries joined between the parentheses of `generateCreateTableSQL`
(the `columnDefinitions` array after every push, lines 40-89). -/
def tableDefEntries (d : Dialect) (table : TableData) (relationships : List RelationshipData)
    (allTables : List TableData) : List String :=
  table.columns.map (columnDefinition d) ++ pkDefs d table.columns ++
    uniqueDefs d table.columns ++ fkDefs d table relationships allTables

/-- The MySQL-only table options suffix of `generateCreateTableSQL`
(lines 94-111). -/
def tableOptionsSQL (d : Dialect) (table : TableData) : String :=
  if d = Dialect.mysql then
    (if jsTruthy table.engine then " ENGINE=" ++ table.engine.getD "" else "") ++
    (if jsTruthy table.charset then " DEFAULT CHARSET=" ++ table.charset.getD "" else "") ++
    (if jsTruthy table.collation then " COLLATE=" ++ table.collation.getD "" else "") ++
    (if jsTruthyNat table.autoIncrement then
      " AUTO_INCREMENT=" ++ toString (table.autoIncrement.getD 0) else "") ++
    (if jsTruthy table.comment then
      " COMMENT=" ++ sq ++ sqEscape (table.comment.getD "") ++ sq else "")
  else ""

/-- `generateCreateTableSQL` (lines 35-114). -/
def generateCreateTableSQL (d : Dialect) (table : TableData)
    (relationships : List RelationshipData) (allTables : List TableData) : String :=
  "CREATE TABLE " ++ quoteIdentifier d table.name ++ " (\n" ++
    String.intercalate ",\n" (tableDefEntries d table relationships allTables) ++
    "\n)" ++ tableOptionsSQL d table ++ ";"

/-- `generateGrantPrivilegesSQL` (lines 272-283): the target scope is
`*.*` unless a database is supplied, `db.*` with only a database, and
`db.table` with both. -/
def generateGrantPrivilegesSQL (d : Dialect) (user : UserData)
    (database table : Option String) : String :=
  let privileges := String.intercalate ", " user.privileges
  let target :=
    if jsTruthy database && jsTruthy table then
      quoteIdentifier d (database.getD "") ++ "." ++ quoteIdentifier d (table.getD "")
    else if jsTruthy database then
      quoteIdentifier d (database.getD "") ++ ".*"
    else "*.*"
  "GRANT " ++ privileges ++ " ON " ++ target ++ " TO " ++
    quoteIdentifier d user.username ++ "@" ++ quoteIdentifier d user.host ++ ";"

/-- The relationship actions of the reducer's action union. -/
inductive ProjectAction
  | addRelationship (payload : RelationshipData)
  | deleteRelationship (payload : String)
deriving DecidableEq, Repr

/-- Marking of the target column on `ADD_RELATIONSHIP` (lines 86-90):
the column whose id is the payload's target column becomes a foreign
key referencing the payload's source table and source column. -/
def markFK (rel : RelationshipData) (c : Column) : Column :=
  if c.id == rel.targetColumn then
    { c with isForeignKey := some true,
             referencesTable := some rel.sourceTable,
             referencesColumn := some rel.sourceColumn }
  else c

/-- Clearing of the target column on `DELETE_RELATIONSHIP`
(lines 103-107): the flag becomes `false` and both reference fields
become `undefined`. -/
def clearFK (rel : RelationshipData) (c : Column) : Column :=
  if c.id == rel.targetColumn then
    { c with isForeignKey := some false,
             referencesTable := none,
             referencesColumn := none }
  else c

/-- The reducer touches the first table whose id matches (JS
`Array.prototype.find` followed by in-place mutation of the found
object); later tables are untouched even when ids collide. -/
def updateFirstTable (tid : String) (f : TableData → TableData) :
    List TableData → List TableData
  | [] => []
  | t :: ts => if t.id == tid then f t :: ts else t :: updateFirstTable tid f ts

/-- `projectReducer`, restricted to the two relationship actions. -/
def projectReducer (state : ProjectData) : ProjectAction → ProjectData
  | .addRelationship payload =>
    { state with
        relationships := state.relationships ++ [payload],
        tables := updateFirstTable payload.targetTable
          (fun t => { t with columns := t.columns.map (markFK payload) }) state.tables }
  | .deleteRelationship payload =>
    match state.relationships.find? fun r => r.id == payload with
    | none =>
      { state with relationships := state.relationships.filter fun r => r.id != payload }
    | some relToDelete =>
      { state with
          relationships := state.relationships.filter fun r => r.id != payload,
          tables := updateFirstTable relToDelete.targetTable
            (fun t => { t with columns := t.columns.map (clearFK relToDelete) }) state.tables }

/-! ## Concrete example records used by witnesses and counterexamples -/

/-- A database record without a comment. -/
def exDb : DatabaseData :=
  { id := "db1", name := "mydb", charset := "utf8mb4", collation := "utf8mb4_general_ci" }

/-- A table with no columns. -/
def exEmptyTable : TableData :=
  { id := "t9", name := "empty_t", columns := [], position := ⟨0, 0⟩ }

/-- A relationship whose source table is not `exEmptyTable`. -/
def exOtherRel : RelationshipData :=
  { id := "r9", sourceTable := "zzz", targetTable := "t9", sourceColumn := "a",
    targetColumn := "b", cardinality := "one-to-many", onUpdate := .cascade,
    onDelete := .restrict }

/-- A one-column table with no column flagged primary key. -/
def exTableNoPK : TableData :=
  { id := "t1", name := "users",
    columns := [{ id := "c1", name := "name", dataType := "TEXT", isPrimaryKey := false,
                  isNotNull := false, isAutoIncrement := false, isUnique := false }],
    position := ⟨0, 0⟩ }

/-- A table used by the dangling-foreign-key witness. -/
def exFkTable : TableData :=
  { id := "ft", name := "orders",
    columns := [{ id := "col1", name := "cust_id", dataType := "INT", isPrimaryKey := false,
                  isNotNull := false, isAutoIncrement := false, isUnique := false }],
    position := ⟨0, 0⟩ }

/-- A relationship on `exFkTable` whose source column id resolves to no column. -/
def exDanglingRel : RelationshipData :=
  { id := "rel1", sourceTable := "ft", targetTable := "missing", sourceColumn := "nope",
    targetColumn := "nope2", cardinality := "one-to-many", onUpdate := .noAction,
    onDelete := .cascade }

/-- Source-side column `a_id` of the relationship scenario. -/
def exColA : Column :=
  { id := "colA", name := "a_id", dataType := "INT", isPrimaryKey := true,
    isNotNull := true, isAutoIncrement := false, isUnique := false }

/-- Target-side column `b_id` of the relationship scenario. -/
def exColB : Column :=
  { id := "colB", name := "b_id", dataType := "INT", isPrimaryKey := false,
    isNotNull := false, isAutoIncrement := false, isUnique := false }

/-- Table `A`, the source table of the relationship scenario. -/
def exTableA : TableData :=
  { id := "tA", name := "A", columns := [exColA], position := ⟨0, 0⟩ }

/-- Table `B`, the target table of the relationship scenario. -/
def exTableB : TableData :=
  { id := "tB", name := "B", columns := [exColB], position := ⟨10, 0⟩ }

/-- The relationship from `A.a_id` (source) to `B.b_id` (target). -/
def exRel : RelationshipData :=
  { id := "relAB", sourceTable := "tA", targetTable := "tB", sourceColumn := "colA",
    targetColumn := "colB", cardinality := "one-to-many", onUpdate := .cascade,
    onDelete := .cascade }

/-- A project state holding tables `A` and `B` and no relationships. -/
def exState : ProjectData :=
  { databases := [], tables := [exTableA, exTableB], relationships := [], indexes := [],
    views := [], procedures := [], triggers := [], users := [], name := "demo",
    dialect := .mysql }

/-- A relationship present in `exState10`. -/
def exRel10 : RelationshipData :=
  { id := "r1", sourceTable := "tA", targetTable := "tB", sourceColumn := "colA",
    targetColumn := "colB", cardinality := "one-to-one", onUpdate := .restrict,
    onDelete := .restrict }

/-- A project state with one relationship and one table. -/
def exState10 : ProjectData :=
  { databases := [], tables := [exTableB], relationships := [exRel10], indexes := [],
    views := [], procedures := [], triggers := [], users := [], name := "demo10",
    dialect := .postgresql }

/-! ## Shared helper lemmas -/

/-- `updateFirstTable` touches exactly the first matching element. -/
theorem updateFirstTable_append (tid : String) (f : TableData → TableData)
    (pre post : List TableData) (tB : TableData)
    (hpre : ∀ t ∈ pre, ¬(t.id == tid) = true) (htB : (tB.id == tid) = true) :
    updateFirstTable tid f (pre ++ tB :: post) = pre ++ f tB :: post := by
  induction pre with
  | nil => simp [updateFirstTable, htB]
  | cons a l ih =>
    have ha : ¬(a.id == tid) = true := hpre a (by simp)
    have ih' := ih fun t ht => hpre t (by simp [ht])
    simp only [List.cons_append, updateFirstTable, if_neg ha]
    exact congrArg (List.cons a) ih'

/-- Clearing a foreign-key mark right after setting it leaves exactly
the cleared column. -/
theorem clearFK_markFK (rel : RelationshipData) (c : Column) :
    clearFK rel (markFK rel c) = clearFK rel c := by
  unfold markFK clearFK
  by_cases h : (c.id == rel.targetColumn) = true
  · simp [h]
  · simp [h]

/-- C1: a relationship whose source table matches the table being generated
but whose source column, target table, or target column does not resolve by
identifier lookup contributes no FOREIGN KEY constraint: `createTable` with
that relationship present equals `createTable` with it removed, and the
rest of the statement is unchanged (the generator is total, so it cannot
throw). -/
theorem C1_fk_dangling_skipped (d : Dialect) (t : TableData) (allTables : List TableData)
    (rels₁ rels₂ : List RelationshipData) (rel : RelationshipData)
    (hsrc : rel.sourceTable = t.id)
    (hdangling :
      t.columns.find? (fun col => col.id == rel.sourceColumn) = none ∨
      allTables.find? (fun tt => tt.id == rel.targetTable) = none ∨
      ∀ tt, allTables.find? (fun x => x.id == rel.targetTable) = some tt →
        tt.columns.find? (fun c => c.id == rel.targetColumn) = none) :
    generateCreateTableSQL d t (rels₁ ++ rel :: rels₂) allTables =
      generateCreateTableSQL d t (rels₁ ++ rels₂) allTables := by
  have hnone : fkConstraint d t allTables rel = none := by
    unfold fkConstraint
    rcases hdangling with h | h | h
    · rw [h]
    · cases h1 : t.columns.find? (fun col => col.id == rel.sourceColumn) with
      | none => rfl
      | some sc => rw [h]
    · cases h1 : t.columns.find? (fun col => col.id == rel.sourceColumn) with
      | none => rfl
      | some sc =>
        cases h2 : allTables.find? (fun tt => tt.id == rel.targetTable) with
        | none => rfl
        | some tt => simp [h tt h2]
  have hpred : (rel.sourceTable == t.id) = true := by simp [hsrc]
  unfold generateCreateTableSQL tableDefEntries fkDefs
  rw [List.filter_append, List.filter_append,
    List.filter_cons_of_pos (p := fun r => r.sourceTable == t.id) (a := rel) hpred,
    List.filterMap_append, List.filterMap_append, List.filterMap_cons_none hnone]

/-- C1 witness: on `exFkTable`, the relationship `exDanglingRel` matches by
source table but its source column id resolves to no column, so the
generated statement is the one generated without the relationship. -/
theorem C1_witness :
    exDanglingRel.sourceTable = exFkTable.id ∧
    exFkTable.columns.find? (fun col => col.id == exDanglingRel.sourceColumn) = none ∧
    generateCreateTableSQL Dialect.mysql exFkTable [exDanglingRel] [] =
      generateCreateTableSQL Dialect.mysql exFkTable [] [] :=
  ⟨rfl, by decide,
    C1_fk_dangling_skipped Dialect.mysql exFkTable [] [] [] exDanglingRel rfl
      (Or.inl (by decide))⟩

/-- C2 counterexample: the claim asserts the PostgreSQL-quoted and the
Oracle-quoted forms always differ, but on an identifier that is already
upper-case (here `ID`) both dialects produce exactly `"ID"`. -/
theorem C2_cex : quoteIdentifier Dialect.postgresql "ID" = quoteIdentifier Dialect.oracle "ID" := by
  decide

/-- C2 amended: the MySQL-quoted form of an identifier always differs from
the PostgreSQL and Oracle forms (backtick versus double quote), and the
PostgreSQL form coincides with the Oracle form exactly when upper-casing
leaves the identifier unchanged. -/
theorem C2_quoting_amended (s : String) :
    quoteIdentifier Dialect.mysql s ≠ quoteIdentifier Dialect.postgresql s ∧
    quoteIdentifier Dialect.mysql s ≠ quoteIdentifier Dialect.oracle s ∧
    (quoteIdentifier Dialect.postgresql s = quoteIdentifier Dialect.oracle s ↔
      jsToUpper s = s) := by
  refine ⟨?_, ?_, ?_⟩
  · intro h
    have h2 := congrArg String.data h
    simp [quoteIdentifier, String.data_append] at h2
  · intro h
    have h2 := congrArg String.data h
    simp [quoteIdentifier, String.data_append] at h2
  · constructor
    · intro h
      have h2 := congrArg String.data h
      simp [quoteIdentifier, String.data_append] at h2
      exact String.ext h2.symm
    · intro h
      simp [quoteIdentifier, h]

/-- C2 witness: the amended statement evaluated at the identifier `id`. -/
theorem C2_witness :
    quoteIdentifier Dialect.mysql "id" ≠ quoteIdentifier Dialect.postgresql "id" ∧
    quoteIdentifier Dialect.mysql "id" ≠ quoteIdentifier Dialect.oracle "id" ∧
    (quoteIdentifier Dialect.postgresql "id" = quoteIdentifier Dialect.oracle "id" ↔
      jsToUpper "id" = "id") :=
  C2_quoting_amended "id"

/-- C3 counterexample: the claim asserts the CHARACTER SET / COLLATE
clauses are appended for the MySQL family including MariaDB, but under
the MariaDB dialect `createDatabase` emits no charset clause at all. -/
theorem C3_cex :
    generateCreateDatabaseSQL Dialect.mariadb exDb = "CREATE DATABASE `mydb`;" ∧
    strContains (generateCreateDatabaseSQL Dialect.mariadb exDb) "CHARACTER SET" = false := by
  constructor
  · decide
  · decide

/-- C3 amended: `createDatabase` emits `CREATE DATABASE <quoted-name>`,
appends the CHARACTER SET and COLLATE clauses exactly when the dialect is
MySQL (MariaDB gets none), appends a COMMENT clause exactly when the
comment field is present and non-empty (with single quotes doubled), and
terminates with `;`. -/
theorem C3_amended (d : Dialect) (db : DatabaseData) :
    generateCreateDatabaseSQL d db =
      "CREATE DATABASE " ++ quoteIdentifier d db.name ++
      (if d = Dialect.mysql then " CHARACTER SET " ++ db.charset ++ " COLLATE " ++ db.collation
       else "") ++
      (if jsTruthy db.comment then " COMMENT " ++ sq ++ sqEscape (db.comment.getD "") ++ sq
       else "") ++ ";" := by
  unfold generateCreateDatabaseSQL
  by_cases hd : d = Dialect.mysql <;> by_cases hc : jsTruthy db.comment <;>
    simp [hd, hc, String.append_assoc, String.append_empty]

/-- C5: for a non-empty default value, the special tokens (case-insensitive
NOW(), CURRENT_TIMESTAMP, CURRENT_DATE, CURRENT_TIME), the literal NULL,
and values parsing as a JS number pass through unquoted; every other value
is wrapped in single quotes with embedded quotes doubled. -/
theorem C5_default_formatting (v : String) (h : v ≠ "") :
    formatDefaultValue v =
      if specialDefaultTokens.contains (jsToUpper v) || v == "NULL" || jsIsNumeric v then v
      else sq ++ sqEscape v ++ sq := by
  unfold formatDefaultValue
  by_cases h1 : specialDefaultTokens.contains (jsToUpper v) <;>
    by_cases h2 : (v == "NULL") = true <;>
      by_cases h3 : jsIsNumeric v <;> simp [h1, h2, h3]

/-- C5 witness: the statement evaluated at the non-empty value `O'Brien`
(which falls into the quoted-and-escaped branch, emitting `'O''Brien'`). -/
theorem C5_witness :
    (("O" ++ sq ++ "Brien" : String) ≠ "") ∧
    formatDefaultValue ("O" ++ sq ++ "Brien") =
      (if specialDefaultTokens.contains (jsToUpper ("O" ++ sq ++ "Brien")) ||
          ("O" ++ sq ++ "Brien") == "NULL" || jsIsNumeric ("O" ++ sq ++ "Brien")
       then "O" ++ sq ++ "Brien"
       else sq ++ sqEscape ("O" ++ sq ++ "Brien") ++ sq) :=
  ⟨by decide, C5_default_formatting _ (by decide)⟩

/-- C6 counterexample: the claim asserts a PRIMARY KEY constraint is
appended regardless of how many columns are flagged, empty when none is;
but for a table whose single column is not flagged, the generated
statement contains no PRIMARY KEY text at all. -/
theorem C6_cex :
    generateCreateTableSQL Dialect.postgresql exTableNoPK [] [] =
      "CREATE TABLE \"users\" (\n  \"name\" TEXT\n);" ∧
    strContains (generateCreateTableSQL Dialect.postgresql exTableNoPK [] []) "PRIMARY KEY" =
      false := by
  constructor
  · decide
  · decide

/-- C6 amended: when at least one column is flagged primary key,
`createTable` appends exactly one PRIMARY KEY constraint listing the
flagged columns' quoted names in table-column order; when none is flagged
the constraint is omitted entirely. -/
theorem C6_pk_clause (d : Dialect) (t : TableData) (rels : List RelationshipData)
    (allTables : List TableData) :
    generateCreateTableSQL d t rels allTables =
      "CREATE TABLE " ++ quoteIdentifier d t.name ++ " (\n" ++
        String.intercalate ",\n"
          (t.columns.map (columnDefinition d) ++
            (if (t.columns.filter fun c => c.isPrimaryKey).isEmpty then []
             else ["  PRIMARY KEY (" ++
               String.intercalate ", "
                 ((t.columns.filter fun c => c.isPrimaryKey).map fun c =>
                   quoteIdentifier d c.name) ++ ")"]) ++
            uniqueDefs d t.columns ++ fkDefs d t rels allTables) ++
        "\n)" ++ tableOptionsSQL d t ++ ";" := by
  unfold generateCreateTableSQL tableDefEntries pkDefs
  cases h : t.columns.filter (fun c => c.isPrimaryKey) with
  | nil => simp [h]
  | cons a l => simp [h]

/-- C7: adding a relationship appends it to the relationship collection and
marks the target table's target column as a foreign key referencing the
relationship's source table and source column; deleting that relationship
removes it again and clears the flag and both reference fields on that
same column. -/
theorem C7_relationship_mark_unmark (state : ProjectData) (rel : RelationshipData)
    (pre post : List TableData) (tB : TableData)
    (h1 : state.tables = pre ++ tB :: post)
    (h2 : ∀ t ∈ pre, t.id ≠ rel.targetTable)
    (h3 : tB.id = rel.targetTable)
    (h4 : ∀ r ∈ state.relationships, r.id ≠ rel.id) :
    (projectReducer state (ProjectAction.addRelationship rel)).relationships =
      state.relationships ++ [rel] ∧
    (projectReducer state (ProjectAction.addRelationship rel)).tables =
      pre ++ { tB with columns := tB.columns.map (markFK rel) } :: post ∧
    (projectReducer (projectReducer state (ProjectAction.addRelationship rel))
        (ProjectAction.deleteRelationship rel.id)).relationships = state.relationships ∧
    (projectReducer (projectReducer state (ProjectAction.addRelationship rel))
        (ProjectAction.deleteRelationship rel.id)).tables =
      pre ++ { tB with columns := tB.columns.map (clearFK rel) } :: post := by
  have hpre : ∀ t ∈ pre, ¬(t.id == rel.targetTable) = true := by
    intro t ht
    simp [h2 t ht]
  have htB : (tB.id == rel.targetTable) = true := by simp [h3]
  have htables :
      (projectReducer state (ProjectAction.addRelationship rel)).tables =
        pre ++ { tB with columns := tB.columns.map (markFK rel) } :: post := by
    simp only [projectReducer, h1]
    exact updateFirstTable_append _ _ _ _ _ hpre htB
  have hfind :
      ((state.relationships ++ [rel]).find? fun r => r.id == rel.id) = some rel := by
    rw [List.find?_append]
    have hnone : (state.relationships.find? fun r => r.id == rel.id) = none := by
      rw [List.find?_eq_none]
      intro r hr
      simp [h4 r hr]
    simp [hnone, List.find?]
  have hfilter :
      ((state.relationships ++ [rel]).filter fun r => r.id != rel.id) =
        state.relationships := by
    rw [List.filter_append]
    have hself : (state.relationships.filter fun r => r.id != rel.id) =
        state.relationships := by
      rw [List.filter_eq_self]
      intro r hr
      simp [h4 r hr]
    simp [hself, List.filter]
  refine ⟨rfl, htables, ?_, ?_⟩
  · simp only [projectReducer, hfind, hfilter]
  · simp only [projectReducer, hfind]
    have htB2 : (({ tB with columns := tB.columns.map (markFK rel) } : TableData).id ==
        rel.targetTable) = true := htB
    rw [h1, updateFirstTable_append _ _ _ _ _ hpre htB,
      updateFirstTable_append _ _ _ _ _ hpre htB2]
    simp only [List.map_map]
    rw [show clearFK rel ∘ markFK rel = clearFK rel from funext fun c => clearFK_markFK rel c]

/-- C7 witness: the add/delete round trip on `exState` with the
relationship from `A.a_id` to `B.b_id` (spec scenario 3), with the
hypotheses discharged at these concrete records. -/
theorem C7_witness :
    (projectReducer exState (ProjectAction.addRelationship exRel)).relationships =
      exState.relationships ++ [exRel] ∧
    (projectReducer exState (ProjectAction.addRelationship exRel)).tables =
      [exTableA] ++ { exTableB with columns := exTableB.columns.map (markFK exRel) } :: [] ∧
    (projectReducer (projectReducer exState (ProjectAction.addRelationship exRel))
        (ProjectAction.deleteRelationship exRel.id)).relationships = exState.relationships ∧
    (projectReducer (projectReducer exState (ProjectAction.addRelationship exRel))
        (ProjectAction.deleteRelationship exRel.id)).tables =
      [exTableA] ++ { exTableB with columns := exTableB.columns.map (clearFK exRel) } :: [] :=
  C7_relationship_mark_unmark exState exRel [exTableA] [] exTableB rfl (by decide) rfl
    (by decide)

/-- C8: for every dialect, a table with no columns, and no relationship
whose source table matches, `createTable` emits a statement whose body
between the parentheses is empty (the joined entry list is the empty
string) and which is terminated with `;`. -/
theorem C8_empty_table (d : Dialect) (t : TableData) (rels : List RelationshipData)
    (allTables : List TableData) (hcols : t.columns = [])
    (hrels : ∀ r ∈ rels, r.sourceTable ≠ t.id) :
    generateCreateTableSQL d t rels allTables =
      "CREATE TABLE " ++ quoteIdentifier d t.name ++ " (\n" ++ "\n)" ++
        tableOptionsSQL d t ++ ";" := by
  have hfk : rels.filter (fun rel => rel.sourceTable == t.id) = [] := by
    rw [List.filter_eq_nil_iff]
    intro a ha
    simp [hrels a ha]
  unfold generateCreateTableSQL tableDefEntries pkDefs uniqueDefs fkDefs
  rw [hcols, hfk]
  simp [String.append_assoc, String.append_empty,
    show String.intercalate ",\n" ([] : List String) = "" from rfl]

/-- C8 witness: the statement evaluated under SQLite at `exEmptyTable`,
with a relationship list whose only element does not match by source
table. -/
theorem C8_witness :
    (∀ r ∈ [exOtherRel], r.sourceTable ≠ exEmptyTable.id) ∧
    generateCreateTableSQL Dialect.sqlite exEmptyTable [exOtherRel] [] =
      "CREATE TABLE " ++ quoteIdentifier Dialect.sqlite exEmptyTable.name ++ " (\n" ++ "\n)" ++
        tableOptionsSQL Dialect.sqlite exEmptyTable ++ ";" :=
  ⟨by decide, C8_empty_table Dialect.sqlite exEmptyTable [exOtherRel] [] rfl (by decide)⟩

/-- C9: supplying a table name without a database name leaves the grant
target at `*.*`, producing the same statement as supplying neither. -/
theorem C9_grant_table_only (d : Dialect) (u : UserData) (t : String) :
    generateGrantPrivilegesSQL d u none (some t) = generateGrantPrivilegesSQL d u none none := by
  simp [generateGrantPrivilegesSQL, jsTruthy]

/-- C10: deleting a relationship id that matches no relationship in the
state returns a state equal to the input: nothing is removed and no
table's columns change. -/
theorem C10_delete_missing (state : ProjectData) (rid : String)
    (h : ∀ r ∈ state.relationships, r.id ≠ rid) :
    projectReducer state (ProjectAction.deleteRelationship rid) = state := by
  have hfind : state.relationships.find? (fun r => r.id == rid) = none := by
    rw [List.find?_eq_none]
    intro r hr
    simp [h r hr]
  have hfilter : state.relationships.filter (fun r => r.id != rid) = state.relationships := by
    rw [List.filter_eq_self]
    intro r hr
    simp [h r hr]
  simp [projectReducer, hfind, hfilter]

/-- C10 witness: deleting the unknown id `zzz` from `exState10` (which
holds one relationship and one table) returns the state unchanged. -/
theorem C10_witness :
    (∀ r ∈ exState10.relationships, r.id ≠ "zzz") ∧
    projectReducer exState10 (ProjectAction.deleteRelationship "zzz") = exState10 :=
  ⟨by decide, C10_delete_missing exState10 "zzz" (by decide)⟩

end SqlArchitect
